import Mathlib

/-
  Verification development for the Neal-Tracker bot (src/shipley_bot.py).

  The data model and the operations below are shallow embeddings of the
  Python source: pure helpers (parse_score, fmt, parse_position_num,
  detect_score_event) become Lean functions on Option Int / String, and
  the decision engine decide_and_tweet becomes a pure function from a
  Snapshot, a prior BotState and a posting oracle (the boolean outcome of
  post_tweet per fired category) to an Option of (new state, fired
  categories).  A Python run that raises (comparing None with an int)
  is modelled as none.  Python ints are Lean Int; the float division in
  detect_score_event is modelled as exact rational division (the operands
  are small integers, where float comparison against 2 agrees with the
  rational one).
-/

set_option maxHeartbeats 1000000
set_option maxRecDepth 4000

/-- Update categories of the decision engine, one per message kind the bot
can emit (the five mutually exclusive branches of decide_and_tweet). -/
inductive Category where
  | missedCut
  | teeTime
  | roundFinish
  | scoreAlert
  | milestone
deriving DecidableEq, Repr

/-- The normalised per-run view of the tracked athlete, as produced by
get_player_data in src/shipley_bot.py (the dict named p). -/
structure Snapshot where
  name : String
  tournament : String
  round : Int
  thru : Option Int
  is_live : Bool
  is_done : Bool
  today_score : Option Int
  total_score : Option Int
  position : String
  tee_time : String
  missed_cut : Bool
deriving DecidableEq, Repr

/-- The persisted state record of src/shipley_bot.py (bot_state.json,
schema DEFAULT_STATE, lines 135-147). -/
structure BotState where
  tournament : Option String
  round : Option Int
  thru : Option Int
  today_score : Option Int
  total_score : Option Int
  position : Option String
  missed_cut : Bool
  tee_time_tweeted_round : Option Int
  round_finish_tweeted : Option Int
  last_hole_milestone : Option Int
  last_alert_hole : Option Int
deriving DecidableEq, Repr

/-- DEFAULT_STATE of src/shipley_bot.py lines 135-147: every field starts
as None except missed_cut, which starts False. -/
def DEFAULT_STATE : BotState :=
  { tournament := none
    round := none
    thru := none
    today_score := none
    total_score := none
    position := none
    missed_cut := false
    tee_time_tweeted_round := none
    round_finish_tweeted := none
    last_hole_milestone := none
    last_alert_hole := none }

/-- Model of Python str.strip() with no argument: drop whitespace from both
ends (ASCII whitespace; the feed values carry none beyond spaces). -/
def pyStrip (s : String) : String :=
  String.mk (((s.toList.dropWhile Char.isWhitespace).reverse.dropWhile
      Char.isWhitespace).reverse)

/-- Model of Python str.upper() for the ASCII strings the feed produces. -/
def pyUpper (s : String) : String :=
  String.mk (s.toList.map Char.toUpper)

/-- Replace every non-overlapping occurrence of pat (non-empty), scanning
left to right, exactly as Python str.replace does.  Fuel-based structural
recursion so the kernel can evaluate it; fuel = length of the scanned list
always suffices because every step consumes at least one character. -/
def replaceFuel (pat rep : List Char) : Nat → List Char → List Char
  | 0, l => l
  | _ + 1, [] => []
  | fuel + 1, c :: cs =>
    if pat ≠ [] ∧ pat.isPrefixOf (c :: cs) then
      rep ++ replaceFuel pat rep fuel ((c :: cs).drop pat.length)
    else c :: replaceFuel pat rep fuel cs

/-- Model of Python str.replace(pat, rep) for a non-empty pat. -/
def pyReplace (s pat rep : String) : String :=
  String.mk (replaceFuel pat.toList rep.toList s.toList.length s.toList)

/-- One decimal digit value, used by the int() model. -/
def digitVal (c : Char) : Nat := c.toNat - 48

/-- Value of a non-empty all-digit character list, else none. -/
def digitsToNat? (cs : List Char) : Option Nat :=
  if cs ≠ [] ∧ cs.all Char.isDigit then
    some (cs.foldl (fun a c => a * 10 + digitVal c) 0)
  else none

/-- Model of Python int(s) on a string: optional surrounding whitespace,
optional single sign, then decimal digits; anything else raises ValueError,
modelled as none.  (Digit-group underscores are not modelled; no call site
feeds them.) -/
def pyInt? (s : String) : Option Int :=
  match (pyStrip s).toList with
  | '+' :: rest => (digitsToNat? rest).map (fun n => (n : Int))
  | '-' :: rest => (digitsToNat? rest).map (fun n => -(n : Int))
  | cs => (digitsToNat? cs).map (fun n => (n : Int))

/-- parse_score of src/shipley_bot.py lines 167-180: ESPN display strings
to signed ints; E / Even / -- / empty map to 0, otherwise int() after
removing every plus sign, with ValueError giving None. -/
def parse_score (raw : Option String) : Option Int :=
  match raw with
  | none => none
  | some raw =>
    let s := pyStrip raw
    if s = ("E") ∨ s = ("Even") ∨ s = ("--") ∨ s = ("") then some 0
    else pyInt? (pyReplace s ("+") (""))

/-- fmt of src/shipley_bot.py lines 183-189: None and 0 render as E,
positive scores get a plus prefix. -/
def fmt (score : Option Int) : String :=
  match score with
  | none => ("E")
  | some s => if s = 0 then ("E") else if s > 0 then ("+") ++ toString s else toString s

/-- parse_position_num of src/shipley_bot.py lines 192-206: uppercase, then
chained replace of T, -, ST, ND, RD, TH (in that order, each removing every
occurrence), strip, then int() with ValueError giving None.  An empty or
None input is falsy in Python and returns None immediately. -/
def parse_position_num (pos : Option String) : Option Int :=
  match pos with
  | none => none
  | some p =>
    if p = ("") then none
    else
      let cleaned := pyStrip (pyReplace (pyReplace (pyReplace (pyReplace
        (pyReplace (pyReplace (pyUpper p) ("T") ("")) ("-") (""))
        ("ST") ("")) ("ND") ("")) ("RD") ("")) ("TH") (""))
      pyInt? cleaned

/-- detect_score_event of src/shipley_bot.py lines 378-405.  Python
computes per_hole = delta / holes_played with float division of two ints
and compares it against plus and minus 2; for the magnitudes in play this
is the exact rational comparison, which is what the embedding uses. -/
def detect_score_event (old_today new_today old_thru new_thru : Option Int) :
    Option String :=
  match old_today, new_today, old_thru, new_thru with
  | some ot, some nt, some oh, some nh =>
    let holes_played := nh - oh
    if holes_played ≤ 0 then none
    else
      let delta := nt - ot
      let per_hole : Rat := Rat.divInt delta holes_played
      if per_hole ≤ -2 then some ("eagle")
      else if delta ≤ -3 ∧ holes_played ≤ 2 then some ("birdie_run")
      else if per_hole ≥ 2 then some ("double+")
      else none
  | _, _, _, _ => none

/-- Truthiness of the Python expression
tee_time and any(c.isdigit() for c in tee_time) at line 589: a non-empty
string containing at least one digit. -/
def has_tee_time (p : Snapshot) : Bool :=
  p.tee_time ≠ ("") && p.tee_time.toList.any Char.isDigit

/-- Guard of the tee-time branch (line 590): a parseable tee time while the
player is neither live nor done. -/
def tee_time_pending (p : Snapshot) : Bool :=
  has_tee_time p && !p.is_live && !p.is_done

/-- The observational-field copy performed by decide_and_tweet, both at the
end of the round-finish branch (line 609) and at the bottom of the function
(lines 639-646): tournament, round, thru, today_score, total_score and
position are taken from the snapshot. -/
def persist (p : Snapshot) (s : BotState) : BotState :=
  { s with
    tournament := some p.tournament
    round := some p.round
    thru := p.thru
    today_score := p.today_score
    total_score := p.total_score
    position := some p.position }

/-- Per-round counter reset of lines 596-600: when the stored round differs
from the snapshot round, last_hole_milestone and last_alert_hole are cleared
(missed_cut and tee_time_tweeted_round deliberately are not). -/
def round_reset (p : Snapshot) (s : BotState) : BotState :=
  if s.round ≠ some p.round then
    { s with last_hole_milestone := none, last_alert_hole := none }
  else s

/-- UPDATE_MILESTONES = the set at line 42; the loop at line 628 iterates
sorted(UPDATE_MILESTONES), i.e. 6 then 12. -/
def UPDATE_MILESTONES : List Int := [6, 12]

/-- The score-alert step of the live branch (lines 617-624): if the
classifier reports an event and the current hole is past the last alerted
hole (None counting as 0), attempt the alert tweet and record the hole only
when the post succeeded. -/
def alert_step (p : Snapshot) (cur : Int) (s : BotState) (post : Category → Bool) :
    BotState × List Category :=
  if detect_score_event s.today_score p.today_score s.thru p.thru ≠ none
      ∧ cur > s.last_alert_hole.getD 0 then
    (if post Category.scoreAlert then
       ({ s with last_alert_hole := some cur }, [Category.scoreAlert])
     else (s, [Category.scoreAlert]))
  else (s, [])

/-- The milestone loop of lines 626-636: for the first milestone m with
cur_hole at least m and m past last_milestone, either silently mark it done
(when the alert hole equals the current hole) or attempt the milestone tweet
(marking only on success), then break. -/
def milestone_loop (cur last_milestone : Int) (post : Category → Bool)
    (s : BotState) : List Int → BotState × List Category
  | [] => (s, [])
  | m :: rest =>
    if cur ≥ m ∧ m > last_milestone then
      if s.last_alert_hole = some cur then
        ({ s with last_hole_milestone := some m }, [])
      else if post Category.milestone then
        ({ s with last_hole_milestone := some m }, [Category.milestone])
      else (s, [Category.milestone])
    else milestone_loop cur last_milestone post s rest

/-- The live-play part of decide_and_tweet (lines 613-636).  When is_live
is set but thru is None, detect_score_event returns none (its new_thru
input is None) so the alert guard short-circuits, and the milestone
comparison cur_hole >= milestone then raises TypeError in Python: that
run is modelled as none. -/
def live_step (p : Snapshot) (s : BotState) (post : Category → Bool) :
    Option (BotState × List Category) :=
  match p.thru with
  | none => none
  | some cur =>
    let a := alert_step p cur s post
    let m := milestone_loop cur (a.1.last_hole_milestone.getD 0) post a.1 UPDATE_MILESTONES
    some (m.1, a.2 ++ m.2)

/-- The round-finish branch of lines 603-610: tweet once per round, record
the round and force last_hole_milestone to 18 on success, then copy the
observational fields and return. -/
def finish_branch (p : Snapshot) (s : BotState) (post : Category → Bool) :
    BotState × List Category :=
  if s.round_finish_tweeted ≠ some p.round then
    (if post Category.roundFinish then
       (persist p { s with round_finish_tweeted := some p.round,
                           last_hole_milestone := some 18 },
        [Category.roundFinish])
     else (persist p s, [Category.roundFinish]))
  else (persist p s, [])

/-- decide_and_tweet of src/shipley_bot.py lines 567-647.  post gives the
boolean outcome of post_tweet for each attempted category (each category is
attempted at most once per run); the returned list records every category
for which a tweet was attempted, in program order.  The missed-cut and
tee-time branches return early, before the per-round reset and before the
observational-field copy, exactly as the early returns at lines 586 and 594
do.  A run that raises in Python (live with thru None) is none. -/
def decide_and_tweet (p : Snapshot) (state : BotState) (post : Category → Bool) :
    Option (BotState × List Category) :=
  if p.missed_cut then
    some (if ¬state.missed_cut then
            (if post Category.missedCut then
               ({ state with missed_cut := true }, [Category.missedCut])
             else (state, [Category.missedCut]))
          else (state, []))
  else if tee_time_pending p then
    some (if state.tee_time_tweeted_round ≠ some p.round then
            (if post Category.teeTime then
               ({ state with tee_time_tweeted_round := some p.round }, [Category.teeTime])
             else (state, [Category.teeTime]))
          else (state, []))
  else if p.is_done then
    some (finish_branch p (round_reset p state) post)
  else if p.is_live then
    (live_step p (round_reset p state) post).map (fun r => (persist p r.1, r.2))
  else
    some (persist p (round_reset p state), [])

/-- The subset of State keys present in a successfully parsed bot_state.json
object; an outer none means the key is absent from the file, in which case
the merge at line 155 keeps the default. -/
structure SavedState where
  tournament : Option (Option String) := none
  round : Option (Option Int) := none
  thru : Option (Option Int) := none
  today_score : Option (Option Int) := none
  total_score : Option (Option Int) := none
  position : Option (Option String) := none
  missed_cut : Option Bool := none
  tee_time_tweeted_round : Option (Option Int) := none
  round_finish_tweeted : Option (Option Int) := none
  last_hole_milestone : Option (Option Int) := none
  last_alert_hole : Option (Option Int) := none
deriving DecidableEq, Repr

/-- The dict merge at line 155: saved keys override the defaults. -/
def merge_state (saved : SavedState) : BotState :=
  { tournament := saved.tournament.getD DEFAULT_STATE.tournament
    round := saved.round.getD DEFAULT_STATE.round
    thru := saved.thru.getD DEFAULT_STATE.thru
    today_score := saved.today_score.getD DEFAULT_STATE.today_score
    total_score := saved.total_score.getD DEFAULT_STATE.total_score
    position := saved.position.getD DEFAULT_STATE.position
    missed_cut := saved.missed_cut.getD DEFAULT_STATE.missed_cut
    tee_time_tweeted_round := saved.tee_time_tweeted_round.getD DEFAULT_STATE.tee_time_tweeted_round
    round_finish_tweeted := saved.round_finish_tweeted.getD DEFAULT_STATE.round_finish_tweeted
    last_hole_milestone := saved.last_hole_milestone.getD DEFAULT_STATE.last_hole_milestone
    last_alert_hole := saved.last_alert_hole.getD DEFAULT_STATE.last_alert_hole }

/-- load_state of src/shipley_bot.py lines 151-157.  file is the contents
of bot_state.json (none when the file is missing, FileNotFoundError).
jsonParse models json.load on those contents: none stands for
json.JSONDecodeError, some for a successfully decoded state object.  Both
caught exceptions yield a fresh copy of the defaults; on success the saved
keys are merged over the defaults.  No path raises. -/
def load_state (file : Option String) (jsonParse : String → Option SavedState) :
    BotState :=
  match file with
  | none => DEFAULT_STATE
  | some contents =>
    match jsonParse contents with
    | none => DEFAULT_STATE
    | some saved => merge_state saved

/-- A quiet baseline snapshot used by the concrete runs below: round 2 of a
named tournament, not teed off, no tee time published, no scores. -/
def baseSnap : Snapshot :=
  { name := ("Neal Shipley")
    tournament := ("The Open")
    round := 2
    thru := none
    is_live := false
    is_done := false
    today_score := none
    total_score := none
    position := ("")
    tee_time := ("")
    missed_cut := false }

/-- Live snapshot through 13 holes of round 2, level par: between two runs
it has crossed both the 6- and the 12-hole milestones. -/
def c2_snap : Snapshot :=
  { baseSnap with thru := some 13, is_live := true,
                  today_score := some 0, total_score := some 0 }

/-- State after running the engine on c2_snap from the defaults with every
post delivered: milestone 6 is recorded, milestone 12 is still open. -/
def c2_state1 : BotState :=
  { tournament := some ("The Open")
    round := some 2
    thru := some 13
    today_score := some 0
    total_score := some 0
    position := some ("")
    missed_cut := false
    tee_time_tweeted_round := none
    round_finish_tweeted := none
    last_hole_milestone := some 6
    last_alert_hole := none }

/-- State after the second run on c2_snap: milestone 12 recorded too. -/
def c2_state2 : BotState :=
  { c2_state1 with last_hole_milestone := some 12 }

/-- Live snapshot through 7 holes (before the 12-hole milestone), used to
witness the amended idempotence statement. -/
def c2w_snap : Snapshot :=
  { baseSnap with thru := some 7, is_live := true,
                  today_score := some 0, total_score := some 0 }

/-- State after one delivered run on c2w_snap from the defaults. -/
def c2w_state1 : BotState :=
  { c2_state1 with thru := some 7 }

/-- Missed-cut snapshot: the engine returns from its first branch. -/
def c3_snap : Snapshot :=
  { baseSnap with missed_cut := true, total_score := some 5 }

/-- State returned for c3_snap from the defaults with the post delivered:
only missed_cut is set; no observational field was copied. -/
def c3_state : BotState :=
  { DEFAULT_STATE with missed_cut := true }

/-- Live round-2 snapshot through 6 holes with no score baseline. -/
def c4_snap : Snapshot :=
  { baseSnap with thru := some 6, is_live := true }

/-- Prior state from round 1: finish announced, milestone 12 and alert
hole 3 recorded. -/
def c4_state : BotState :=
  { tournament := some ("The Open")
    round := some 1
    thru := some 18
    today_score := some 0
    total_score := some 0
    position := some ("")
    missed_cut := false
    tee_time_tweeted_round := none
    round_finish_tweeted := some 1
    last_hole_milestone := some 12
    last_alert_hole := some 3 }

/-- Result of running c4_snap against c4_state with every post failing:
the milestone fires (and fails), and the round-advance reset has cleared
both per-round markers. -/
def c4_result : BotState :=
  { c4_state with round := some 2, thru := some 6, today_score := none,
                  total_score := none, round_finish_tweeted := some 1,
                  last_hole_milestone := none, last_alert_hole := none }

/-- Live snapshot through 6 holes of round 2 at two under for the day. -/
def c8_snap : Snapshot :=
  { baseSnap with thru := some 6, is_live := true,
                  today_score := some (-2), total_score := some (-2) }

/-- Prior state in the same round with a score alert already recorded for
hole 6 (the snapshot hole) and no milestone recorded yet. -/
def c8_state : BotState :=
  { tournament := some ("The Open")
    round := some 2
    thru := some 5
    today_score := some 0
    total_score := some 0
    position := some ("")
    missed_cut := false
    tee_time_tweeted_round := none
    round_finish_tweeted := none
    last_hole_milestone := none
    last_alert_hole := some 6 }

/-- Result of the c8_snap run: the due hole-6 milestone is marked done
silently (no message) because the alert hole equals the current hole. -/
def c8_result : BotState :=
  { c8_state with thru := some 6, today_score := some (-2),
                  total_score := some (-2), last_hole_milestone := some 6 }

lemma tee_time_pending_of_live (p : Snapshot) (h : p.is_live = true) :
    tee_time_pending p = false := by
  simp [tee_time_pending, h]

lemma round_reset_of_ne (p : Snapshot) (s : BotState) (h : s.round ≠ some p.round) :
    round_reset p s = { s with last_hole_milestone := none, last_alert_hole := none } := by
  simp [round_reset, h]

lemma round_reset_of_eq (p : Snapshot) (s : BotState) (h : s.round = some p.round) :
    round_reset p s = s := by
  simp [round_reset, h]

lemma round_reset_fst_cases (p : Snapshot) (s : BotState) :
    round_reset p s = s ∨
    round_reset p s = { s with last_hole_milestone := none, last_alert_hole := none } := by
  unfold round_reset
  split
  · right; rfl
  · left; rfl

lemma alert_step_fst_cases (p : Snapshot) (cur : Int) (s : BotState) (post : Category → Bool) :
    (alert_step p cur s post).1 = s ∨
    (alert_step p cur s post).1 = { s with last_alert_hole := some cur } := by
  unfold alert_step
  split
  · split
    · right; rfl
    · left; rfl
  · left; rfl

lemma alert_step_snd_cases (p : Snapshot) (cur : Int) (s : BotState) (post : Category → Bool) :
    (alert_step p cur s post).2 = [] ∨
    (alert_step p cur s post).2 = [Category.scoreAlert] := by
  unfold alert_step
  split
  · split
    · right; rfl
    · right; rfl
  · left; rfl

lemma alert_step_of_post_false (p : Snapshot) (cur : Int) (s : BotState)
    (post : Category → Bool) (h : post Category.scoreAlert = false) :
    (alert_step p cur s post).1 = s := by
  unfold alert_step
  split
  · rw [if_neg (by simp [h])]
  · rfl

lemma milestone_loop_fst_cases (cur last : Int) (post : Category → Bool) (s : BotState)
    (ms : List Int) :
    (milestone_loop cur last post s ms).1 = s ∨
    ∃ m, m ∈ ms ∧ (milestone_loop cur last post s ms).1 = { s with last_hole_milestone := some m } := by
  induction ms with
  | nil => left; rfl
  | cons m rest ih =>
    unfold milestone_loop
    split
    · split
      · right; exact ⟨m, by simp, rfl⟩
      · split
        · right; exact ⟨m, by simp, rfl⟩
        · left; rfl
    · rcases ih with h | ⟨m', hm', h⟩
      · left; exact h
      · right; exact ⟨m', by simp [hm'], h⟩

lemma milestone_loop_snd_cases (cur last : Int) (post : Category → Bool) (s : BotState)
    (ms : List Int) :
    (milestone_loop cur last post s ms).2 = [] ∨
    (milestone_loop cur last post s ms).2 = [Category.milestone] := by
  induction ms with
  | nil => left; rfl
  | cons m rest ih =>
    unfold milestone_loop
    split
    · split
      · left; rfl
      · split
        · right; rfl
        · right; rfl
    · exact ih

lemma milestone_loop_of_post_false (cur last : Int) (post : Category → Bool) (s : BotState)
    (ms : List Int) (h : post Category.milestone = false)
    (hf : Category.milestone ∈ (milestone_loop cur last post s ms).2) :
    (milestone_loop cur last post s ms).1 = s := by
  induction ms with
  | nil => rfl
  | cons m rest ih =>
    by_cases hd : cur ≥ m ∧ m > last
    · by_cases ha : s.last_alert_hole = some cur
      · unfold milestone_loop at hf
        rw [if_pos hd, if_pos ha] at hf
        simp at hf
      · unfold milestone_loop
        rw [if_pos hd, if_neg ha, h]
        simp
    · unfold milestone_loop at hf ⊢
      rw [if_neg hd] at hf ⊢
      exact ih hf

lemma detect_score_event_same_thru (a b : Option Int) (t : Option Int) :
    detect_score_event a b t t = none := by
  cases a <;> cases b <;> cases t <;> simp [detect_score_event]

/-- Claim C6: the score-event classifier returns none when any input is
None or no holes were advanced; otherwise it classifies by the per-hole
average (exact rational value of the Python float division): at most -2
per hole is a sharp gain (returned as the string eagle), else a total drop
of at least 3 strokes over at most 2 holes is a short gain (birdie_run),
else at least +2 per hole is a sharp loss (the string for double bogey or
worse); and the three representative calls evaluate as the spec states. -/
theorem detect_score_event_spec :
    (∀ a b c d : Option Int,
        a = none ∨ b = none ∨ c = none ∨ d = none →
        detect_score_event a b c d = none)
    ∧ (∀ prevToday newToday prevHoles newHoles : Int,
        newHoles - prevHoles ≤ 0 →
        detect_score_event (some prevToday) (some newToday) (some prevHoles)
          (some newHoles) = none)
    ∧ (∀ prevToday newToday prevHoles newHoles : Int,
        0 < newHoles - prevHoles →
        detect_score_event (some prevToday) (some newToday) (some prevHoles)
            (some newHoles) =
          (if ((newToday - prevToday : Int) : Rat) / ((newHoles - prevHoles : Int) : Rat) ≤ -2 then
             some ("eagle")
           else if newToday - prevToday ≤ -3 ∧ newHoles - prevHoles ≤ 2 then
             some ("birdie_run")
           else if 2 ≤ ((newToday - prevToday : Int) : Rat) / ((newHoles - prevHoles : Int) : Rat) then
             some ("double+")
           else none))
    ∧ detect_score_event (some 0) (some (-2)) (some 5) (some 6) = some ("eagle")
    ∧ detect_score_event (some 0) (some 2) (some 5) (some 6) = some ("double+")
    ∧ detect_score_event (some 0) (some (-1)) (some 5) (some 6) = none := by
  refine ⟨?_, ?_, ?_, by decide, by decide, by decide⟩
  · intro a b c d h
    rcases h with h | h | h | h <;> subst h
    · cases b <;> cases c <;> cases d <;> rfl
    · cases a <;> cases c <;> cases d <;> rfl
    · cases a <;> cases b <;> cases d <;> rfl
    · cases a <;> cases b <;> cases c <;> rfl
  · intro a b c d h
    simp only [detect_score_event]
    rw [if_pos h]
  · intro a b c d h
    simp only [detect_score_event]
    rw [if_neg (by omega)]
    simp only [Rat.divInt_eq_div, ge_iff_le]

/-- Witness for C6: each universally quantified conjunct applied at a
concrete input with its hypothesis discharged. -/
theorem detect_score_event_spec_witness :
    detect_score_event none (some 1) (some 2) (some 3) = none
    ∧ detect_score_event (some 0) (some 1) (some 6) (some 6) = none
    ∧ detect_score_event (some 0) (some (-4)) (some 0) (some 2) =
        (if (((-4) - 0 : Int) : Rat) / ((2 - 0 : Int) : Rat) ≤ -2 then some ("eagle")
         else if (-4 : Int) - 0 ≤ -3 ∧ (2 : Int) - 0 ≤ 2 then some ("birdie_run")
         else if 2 ≤ (((-4) - 0 : Int) : Rat) / ((2 - 0 : Int) : Rat) then some ("double+")
         else none) :=
  ⟨detect_score_event_spec.1 none (some 1) (some 2) (some 3) (Or.inl rfl),
   detect_score_event_spec.2.1 0 1 6 6 (by decide),
   detect_score_event_spec.2.2.1 0 (-4) 0 2 (by decide)⟩

/-- Claim C7: parse_position_num evaluated at the three spec inputs.  The
first two agree with the spec, but the input 1st returns None, not 1: the
chained replace removes every letter T first, so the string 1ST becomes 1S
before the ST suffix replacement can see it, and int() then fails.  The
function docstring in the source promises 1st maps to 1, so this is a bug
in the code, exhibited by this evaluation. -/
theorem parse_position_num_eval :
    parse_position_num (some ("T5")) = some 5
    ∧ parse_position_num (some ("")) = none
    ∧ parse_position_num (some ("1st")) = none := by
  exact ⟨by decide, by decide, by decide⟩

/-- Claim C9: formatting round-trips parsing on the representative inputs,
the even-par tokens parse to 0, signed strings parse to signed ints, and
fmt renders None and 0 as E, prefixes positive scores with a plus sign and
renders negative scores plainly. -/
theorem score_format_roundtrip :
    fmt (parse_score (some ("+3"))) = ("+3")
    ∧ fmt (parse_score (some ("-2"))) = ("-2")
    ∧ fmt (parse_score (some ("E"))) = ("E")
    ∧ parse_score (some ("E")) = some 0
    ∧ parse_score (some ("Even")) = some 0
    ∧ parse_score (some ("")) = some 0
    ∧ parse_score (some ("--")) = some 0
    ∧ parse_score (some ("+3")) = some 3
    ∧ parse_score (some ("-2")) = some (-2)
    ∧ fmt none = ("E")
    ∧ fmt (some 0) = ("E")
    ∧ (∀ n : Int, 0 < n → fmt (some n) = ("+") ++ toString n)
    ∧ (∀ n : Int, n < 0 → fmt (some n) = toString n) := by
  refine ⟨by decide, by decide, by decide, by decide, by decide, by decide, by decide,
    by decide, by decide, by decide, by decide, ?_, ?_⟩
  · intro n h
    simp only [fmt]
    rw [if_neg (by omega), if_pos (by omega)]
  · intro n h
    simp only [fmt]
    rw [if_neg (by omega), if_neg (by omega)]

/-- Witness for C9: the two universally quantified conjuncts applied at
concrete scores. -/
theorem score_format_roundtrip_witness :
    fmt (some 5) = ("+") ++ toString (5 : Int) ∧ fmt (some (-7)) = toString (-7 : Int) :=
  ⟨score_format_roundtrip.2.2.2.2.2.2.2.2.2.2.2.1 5 (by decide),
   score_format_roundtrip.2.2.2.2.2.2.2.2.2.2.2.2 (-7) (by decide)⟩

/-- Claim C10: whenever json.load fails on the file contents (malformed,
truncated or empty input, i.e. JSONDecodeError) load_state returns a fresh
copy of the defaults without raising, exactly as it does when the state
file is missing. -/
theorem load_state_invalid_json :
    ∀ (jsonParse : String → Option SavedState) (contents : String),
      jsonParse contents = none →
      load_state (some contents) jsonParse = DEFAULT_STATE
      ∧ load_state none jsonParse = DEFAULT_STATE := by
  intro jp c h
  exact ⟨by simp [load_state, h], rfl⟩

/-- Witness for C10: a parser rejecting some concrete contents. -/
theorem load_state_invalid_json_witness :
    load_state (some ("not json")) (fun _ => none) = DEFAULT_STATE
    ∧ load_state none (fun _ => none) = DEFAULT_STATE :=
  load_state_invalid_json (fun _ => none) ("not json") rfl

lemma persist_fields (p : Snapshot) (s : BotState) :
    (persist p s).tournament = some p.tournament
    ∧ (persist p s).round = some p.round
    ∧ (persist p s).thru = p.thru
    ∧ (persist p s).today_score = p.today_score
    ∧ (persist p s).total_score = p.total_score
    ∧ (persist p s).position = some p.position :=
  ⟨rfl, rfl, rfl, rfl, rfl, rfl⟩

lemma finish_branch_fst_persist (p : Snapshot) (s : BotState) (post : Category → Bool) :
    ∃ t, (finish_branch p s post).1 = persist p t := by
  unfold finish_branch
  split
  · split
    · exact ⟨_, rfl⟩
    · exact ⟨_, rfl⟩
  · exact ⟨_, rfl⟩

/-- Claim C1: on a missed-cut snapshot the decision engine fires at most
the missed-cut category, whatever the other signals in the snapshot and
whatever the prior state; and if the sticky state marker is already set it
fires nothing at all. -/
theorem missed_cut_priority :
    ∀ (p : Snapshot) (s : BotState) (post : Category → Bool)
      (s' : BotState) (fired : List Category),
      p.missed_cut = true →
      decide_and_tweet p s post = some (s', fired) →
      (fired = [] ∨ fired = [Category.missedCut])
      ∧ (s.missed_cut = true → fired = []) := by
  intro p s post s' fired hm hrun
  unfold decide_and_tweet at hrun
  rw [if_pos hm] at hrun
  by_cases hs : s.missed_cut = true
  · rw [if_neg (by simp [hs])] at hrun
    simp only [Option.some.injEq, Prod.mk.injEq] at hrun
    exact ⟨Or.inl hrun.2.symm, fun _ => hrun.2.symm⟩
  · rw [if_pos (by simp [hs])] at hrun
    by_cases hp : post Category.missedCut = true
    · rw [if_pos hp] at hrun
      simp only [Option.some.injEq, Prod.mk.injEq] at hrun
      exact ⟨Or.inr hrun.2.symm, fun hc => absurd hc hs⟩
    · rw [if_neg hp] at hrun
      simp only [Option.some.injEq, Prod.mk.injEq] at hrun
      exact ⟨Or.inr hrun.2.symm, fun hc => absurd hc hs⟩

/-- Witness for C1: a concrete missed-cut run fires exactly the missed-cut
category. -/
theorem missed_cut_priority_witness :
    (([Category.missedCut] : List Category) = []
      ∨ ([Category.missedCut] : List Category) = [Category.missedCut])
    ∧ (DEFAULT_STATE.missed_cut = true → ([Category.missedCut] : List Category) = []) :=
  missed_cut_priority { baseSnap with missed_cut := true } DEFAULT_STATE
    (fun _ => true) { DEFAULT_STATE with missed_cut := true }
    [Category.missedCut] rfl (by decide)

/-- Claim C3 counterexample: on a missed-cut snapshot the engine returns
from its first branch at line 586 without copying the observational fields,
so the returned state still has round None and tournament None although the
snapshot carries round 2 of a named tournament.  This refutes the claim
that the copy happens on every path including the missed-cut branch. -/
theorem persist_skipped_on_missed_cut :
    decide_and_tweet c3_snap DEFAULT_STATE (fun _ => true)
      = some (c3_state, [Category.missedCut])
    ∧ c3_state.round ≠ some c3_snap.round
    ∧ c3_state.tournament ≠ some c3_snap.tournament :=
  ⟨by decide, by decide, by decide⟩

/-- Claim C3 (amended): on every path that gets past the missed-cut and
tee-time-pending branches (both of which return early without any copy),
the returned state carries the snapshot values of tournament, round, thru,
today_score, total_score and position. -/
theorem persist_fields_amended :
    ∀ (p : Snapshot) (s : BotState) (post : Category → Bool)
      (s' : BotState) (fired : List Category),
      p.missed_cut = false →
      tee_time_pending p = false →
      decide_and_tweet p s post = some (s', fired) →
      s'.tournament = some p.tournament
      ∧ s'.round = some p.round
      ∧ s'.thru = p.thru
      ∧ s'.today_score = p.today_score
      ∧ s'.total_score = p.total_score
      ∧ s'.position = some p.position := by
  intro p s post s' fired hm ht hrun
  unfold decide_and_tweet at hrun
  rw [if_neg (by simp [hm]), if_neg (by simp [ht])] at hrun
  by_cases hd : p.is_done = true
  · rw [if_pos hd] at hrun
    simp only [Option.some.injEq] at hrun
    obtain ⟨t, hts⟩ := finish_branch_fst_persist p (round_reset p s) post
    have : s' = persist p t := by rw [← hts, hrun]
    rw [this]; exact persist_fields p t
  · rw [if_neg hd] at hrun
    by_cases hl : p.is_live = true
    · rw [if_pos hl] at hrun
      cases hls : live_step p (round_reset p s) post with
      | none => rw [hls] at hrun; simp at hrun
      | some r =>
        rw [hls] at hrun
        simp only [Option.map_some', Option.some.injEq, Prod.mk.injEq] at hrun
        rw [← hrun.1]; exact persist_fields p r.1
    · rw [if_neg hl] at hrun
      simp only [Option.some.injEq, Prod.mk.injEq] at hrun
      rw [← hrun.1]; exact persist_fields p (round_reset p s)

/-- Witness for C3 (amended): a concrete idle run copies all six fields. -/
theorem persist_fields_amended_witness :
    (persist baseSnap (round_reset baseSnap DEFAULT_STATE)).tournament = some baseSnap.tournament
    ∧ (persist baseSnap (round_reset baseSnap DEFAULT_STATE)).round = some baseSnap.round
    ∧ (persist baseSnap (round_reset baseSnap DEFAULT_STATE)).thru = baseSnap.thru
    ∧ (persist baseSnap (round_reset baseSnap DEFAULT_STATE)).today_score = baseSnap.today_score
    ∧ (persist baseSnap (round_reset baseSnap DEFAULT_STATE)).total_score = baseSnap.total_score
    ∧ (persist baseSnap (round_reset baseSnap DEFAULT_STATE)).position = some baseSnap.position :=
  persist_fields_amended baseSnap DEFAULT_STATE (fun _ => true)
    (persist baseSnap (round_reset baseSnap DEFAULT_STATE)) [] rfl rfl (by decide)

lemma round_reset_missed (p : Snapshot) (s : BotState) :
    (round_reset p s).missed_cut = s.missed_cut := by
  unfold round_reset; split <;> rfl

lemma round_reset_ttr (p : Snapshot) (s : BotState) :
    (round_reset p s).tee_time_tweeted_round = s.tee_time_tweeted_round := by
  unfold round_reset; split <;> rfl

lemma round_reset_rft (p : Snapshot) (s : BotState) :
    (round_reset p s).round_finish_tweeted = s.round_finish_tweeted := by
  unfold round_reset; split <;> rfl

lemma round_reset_lah_cases (p : Snapshot) (s : BotState) :
    (round_reset p s).last_alert_hole = s.last_alert_hole
    ∨ (round_reset p s).last_alert_hole = none := by
  unfold round_reset; split
  · right; rfl
  · left; rfl

lemma round_reset_lhm_cases (p : Snapshot) (s : BotState) :
    (round_reset p s).last_hole_milestone = s.last_hole_milestone
    ∨ (round_reset p s).last_hole_milestone = none := by
  unfold round_reset; split
  · right; rfl
  · left; rfl

lemma alert_step_fst_missed (p : Snapshot) (cur : Int) (s : BotState) (post : Category → Bool) :
    (alert_step p cur s post).1.missed_cut = s.missed_cut := by
  rcases alert_step_fst_cases p cur s post with h | h <;> rw [h]

lemma alert_step_fst_ttr (p : Snapshot) (cur : Int) (s : BotState) (post : Category → Bool) :
    (alert_step p cur s post).1.tee_time_tweeted_round = s.tee_time_tweeted_round := by
  rcases alert_step_fst_cases p cur s post with h | h <;> rw [h]

lemma alert_step_fst_rft (p : Snapshot) (cur : Int) (s : BotState) (post : Category → Bool) :
    (alert_step p cur s post).1.round_finish_tweeted = s.round_finish_tweeted := by
  rcases alert_step_fst_cases p cur s post with h | h <;> rw [h]

lemma alert_step_fst_lhm (p : Snapshot) (cur : Int) (s : BotState) (post : Category → Bool) :
    (alert_step p cur s post).1.last_hole_milestone = s.last_hole_milestone := by
  rcases alert_step_fst_cases p cur s post with h | h <;> rw [h]

lemma milestone_loop_fst_missed (cur last : Int) (post : Category → Bool) (s : BotState)
    (ms : List Int) : (milestone_loop cur last post s ms).1.missed_cut = s.missed_cut := by
  rcases milestone_loop_fst_cases cur last post s ms with h | ⟨m, _, h⟩ <;> rw [h]

lemma milestone_loop_fst_ttr (cur last : Int) (post : Category → Bool) (s : BotState)
    (ms : List Int) :
    (milestone_loop cur last post s ms).1.tee_time_tweeted_round = s.tee_time_tweeted_round := by
  rcases milestone_loop_fst_cases cur last post s ms with h | ⟨m, _, h⟩ <;> rw [h]

lemma milestone_loop_fst_rft (cur last : Int) (post : Category → Bool) (s : BotState)
    (ms : List Int) :
    (milestone_loop cur last post s ms).1.round_finish_tweeted = s.round_finish_tweeted := by
  rcases milestone_loop_fst_cases cur last post s ms with h | ⟨m, _, h⟩ <;> rw [h]

lemma milestone_loop_fst_lah (cur last : Int) (post : Category → Bool) (s : BotState)
    (ms : List Int) :
    (milestone_loop cur last post s ms).1.last_alert_hole = s.last_alert_hole := by
  rcases milestone_loop_fst_cases cur last post s ms with h | ⟨m, _, h⟩ <;> rw [h]

lemma finish_branch_fst_missed (p : Snapshot) (s : BotState) (post : Category → Bool) :
    (finish_branch p s post).1.missed_cut = s.missed_cut := by
  unfold finish_branch; split
  · split <;> rfl
  · rfl

lemma finish_branch_fst_ttr (p : Snapshot) (s : BotState) (post : Category → Bool) :
    (finish_branch p s post).1.tee_time_tweeted_round = s.tee_time_tweeted_round := by
  unfold finish_branch; split
  · split <;> rfl
  · rfl

lemma finish_branch_fst_lah (p : Snapshot) (s : BotState) (post : Category → Bool) :
    (finish_branch p s post).1.last_alert_hole = s.last_alert_hole := by
  unfold finish_branch; split
  · split <;> rfl
  · rfl

lemma finish_branch_snd_cases (p : Snapshot) (s : BotState) (post : Category → Bool) :
    (finish_branch p s post).2 = [] ∨ (finish_branch p s post).2 = [Category.roundFinish] := by
  unfold finish_branch; split
  · split
    · right; rfl
    · right; rfl
  · left; rfl

lemma finish_branch_rft_post_false (p : Snapshot) (s : BotState) (post : Category → Bool)
    (h : post Category.roundFinish = false) :
    (finish_branch p s post).1.round_finish_tweeted = s.round_finish_tweeted := by
  unfold finish_branch; split
  · rw [if_neg (by simp [h])]
    rfl
  · rfl

lemma live_step_some_markers (p : Snapshot) (s : BotState) (post : Category → Bool)
    (r : BotState × List Category) (h : live_step p s post = some r) :
    r.1.missed_cut = s.missed_cut
    ∧ r.1.tee_time_tweeted_round = s.tee_time_tweeted_round
    ∧ r.1.round_finish_tweeted = s.round_finish_tweeted := by
  unfold live_step at h
  cases hthru : p.thru with
  | none => rw [hthru] at h; cases h
  | some cur =>
    rw [hthru] at h
    simp only [Option.some.injEq] at h
    rw [← h]
    refine ⟨?_, ?_, ?_⟩
    · rw [milestone_loop_fst_missed, alert_step_fst_missed]
    · rw [milestone_loop_fst_ttr, alert_step_fst_ttr]
    · rw [milestone_loop_fst_rft, alert_step_fst_rft]

/-- Claim C5: when the snapshot round differs from the stored round and the
engine gets past the missed-cut and tee-time-pending branches, the two
per-round markers last_hole_milestone and last_alert_hole are reset to
None before any finish, alert or milestone logic runs (the run is
indistinguishable from one starting with those fields already None, and
when no such logic runs they are None in the returned state), while
missed_cut and tee_time_tweeted_round keep their prior values. -/
theorem round_advance_reset :
    ∀ (p : Snapshot) (s : BotState) (post : Category → Bool)
      (s' : BotState) (fired : List Category),
      s.round ≠ some p.round →
      p.missed_cut = false →
      tee_time_pending p = false →
      decide_and_tweet p s post = some (s', fired) →
      decide_and_tweet p s post
        = decide_and_tweet p { s with last_hole_milestone := none, last_alert_hole := none } post
      ∧ s'.missed_cut = s.missed_cut
      ∧ s'.tee_time_tweeted_round = s.tee_time_tweeted_round
      ∧ (p.is_done = false → p.is_live = false →
          s'.last_hole_milestone = none ∧ s'.last_alert_hole = none) := by
  intro p s post s' fired hr hm ht hrun
  have hr2 : ({ s with last_hole_milestone := none, last_alert_hole := none } : BotState).round
      ≠ some p.round := hr
  have hreq : round_reset p s
      = round_reset p { s with last_hole_milestone := none, last_alert_hole := none } := by
    rw [round_reset_of_ne p s hr, round_reset_of_ne p _ hr2]
  refine ⟨?_, ?_⟩
  · unfold decide_and_tweet
    rw [if_neg (show ¬(p.missed_cut = true) by simp [hm])]
    rw [if_neg (show ¬(p.missed_cut = true) by simp [hm])]
    rw [if_neg (show ¬(tee_time_pending p = true) by simp [ht])]
    rw [if_neg (show ¬(tee_time_pending p = true) by simp [ht])]
    rw [hreq]
  · unfold decide_and_tweet at hrun
    rw [if_neg (by simp [hm]), if_neg (by simp [ht])] at hrun
    by_cases hd : p.is_done = true
    · rw [if_pos hd] at hrun
      simp only [Option.some.injEq] at hrun
      have hfst : s' = (finish_branch p (round_reset p s) post).1 := by rw [hrun]
      refine ⟨?_, ?_, ?_⟩
      · rw [hfst, finish_branch_fst_missed, round_reset_missed]
      · rw [hfst, finish_branch_fst_ttr, round_reset_ttr]
      · intro hd2 _; rw [hd] at hd2; cases hd2
    · rw [if_neg hd] at hrun
      by_cases hl : p.is_live = true
      · rw [if_pos hl] at hrun
        cases hls : live_step p (round_reset p s) post with
        | none => rw [hls] at hrun; cases hrun
        | some r =>
          rw [hls] at hrun
          simp only [Option.map_some', Option.some.injEq, Prod.mk.injEq] at hrun
          obtain ⟨hmk, _, _⟩ := live_step_some_markers p (round_reset p s) post r hls
          refine ⟨?_, ?_, ?_⟩
          · rw [← hrun.1, persist, hmk, round_reset_missed]
          · rw [← hrun.1, persist,
              (live_step_some_markers p (round_reset p s) post r hls).2.1, round_reset_ttr]
          · intro _ hl2; rw [hl] at hl2; cases hl2
      · rw [if_neg hl] at hrun
        simp only [Option.some.injEq, Prod.mk.injEq] at hrun
        have hfst : s' = persist p (round_reset p s) := hrun.1.symm
        refine ⟨?_, ?_, ?_⟩
        · rw [hfst, persist, round_reset_missed]
        · rw [hfst, persist, round_reset_ttr]
        · intro _ _
          rw [hfst, round_reset_of_ne p s hr]
          exact ⟨rfl, rfl⟩

/-- Witness for C5: a concrete idle run over a round change keeps
missed_cut and the tee-time marker and nulls the per-round markers. -/
theorem round_advance_reset_witness :
    decide_and_tweet baseSnap c4_state (fun _ => true)
      = decide_and_tweet baseSnap
          { c4_state with last_hole_milestone := none, last_alert_hole := none } (fun _ => true)
    ∧ (persist baseSnap (round_reset baseSnap c4_state)).missed_cut = c4_state.missed_cut
    ∧ (persist baseSnap (round_reset baseSnap c4_state)).tee_time_tweeted_round
        = c4_state.tee_time_tweeted_round
    ∧ (baseSnap.is_done = false → baseSnap.is_live = false →
        (persist baseSnap (round_reset baseSnap c4_state)).last_hole_milestone = none
        ∧ (persist baseSnap (round_reset baseSnap c4_state)).last_alert_hole = none) :=
  round_advance_reset baseSnap c4_state (fun _ => true)
    (persist baseSnap (round_reset baseSnap c4_state)) [] (by decide) rfl rfl (by decide)

/-- Claim C4 counterexample: starting from a round-1 state holding
last_hole_milestone = 12, a live round-2 snapshot fires the milestone
category, every post fails, and yet the returned last_hole_milestone is
None rather than the prior value 12: the round-advance reset changed the
marker even though nothing was delivered.  This refutes the claim that a
transport failure leaves the fired category marker unchanged from the
prior state. -/
theorem marker_changed_on_failed_post :
    decide_and_tweet c4_snap c4_state (fun _ => false)
      = some (c4_result, [Category.milestone])
    ∧ c4_result.last_hole_milestone = none
    ∧ c4_state.last_hole_milestone = some 12 :=
  ⟨by decide, by decide, by decide⟩

/-- Claim C4 (amended): a failed post never records the fired category.
When the corresponding post fails, missed_cut, tee_time_tweeted_round and
round_finish_tweeted are returned unchanged from the prior state, while
last_alert_hole and last_hole_milestone are returned either unchanged or
as None (the round-advance reset may have cleared them); they are never
set to the fired value, so the same category can fire again next run. -/
theorem marker_atomicity_amended :
    ∀ (p : Snapshot) (s : BotState) (post : Category → Bool)
      (s' : BotState) (fired : List Category),
      decide_and_tweet p s post = some (s', fired) →
      (Category.missedCut ∈ fired → post Category.missedCut = false →
        s'.missed_cut = s.missed_cut)
      ∧ (Category.teeTime ∈ fired → post Category.teeTime = false →
        s'.tee_time_tweeted_round = s.tee_time_tweeted_round)
      ∧ (Category.roundFinish ∈ fired → post Category.roundFinish = false →
        s'.round_finish_tweeted = s.round_finish_tweeted)
      ∧ (Category.scoreAlert ∈ fired → post Category.scoreAlert = false →
        (s'.last_alert_hole = s.last_alert_hole ∨ s'.last_alert_hole = none))
      ∧ (Category.milestone ∈ fired → post Category.milestone = false →
        (s'.last_hole_milestone = s.last_hole_milestone ∨ s'.last_hole_milestone = none)) := by
  intro p s post s' fired hrun
  unfold decide_and_tweet at hrun
  by_cases hm : p.missed_cut = true
  · rw [if_pos hm] at hrun
    simp only [Option.some.injEq] at hrun
    by_cases hs : s.missed_cut = true
    · rw [if_neg (by simp [hs])] at hrun
      simp only [Prod.mk.injEq] at hrun
      obtain ⟨h1, h2⟩ := hrun
      subst h1; subst h2
      refine ⟨?_, ?_, ?_, ?_, ?_⟩ <;> intro hmem <;> simp at hmem
    · rw [if_pos (by simp [hs])] at hrun
      by_cases hp : post Category.missedCut = true
      · rw [if_pos hp] at hrun
        simp only [Prod.mk.injEq] at hrun
        obtain ⟨h1, h2⟩ := hrun
        subst h1; subst h2
        refine ⟨?_, ?_, ?_, ?_, ?_⟩
        · intro _ hpf; rw [hp] at hpf; cases hpf
        · intro hmem; simp at hmem
        · intro hmem; simp at hmem
        · intro hmem; simp at hmem
        · intro hmem; simp at hmem
      · rw [if_neg hp] at hrun
        simp only [Prod.mk.injEq] at hrun
        obtain ⟨h1, h2⟩ := hrun
        subst h1; subst h2
        refine ⟨fun _ _ => rfl, ?_, ?_, ?_, ?_⟩
        · intro hmem; simp at hmem
        · intro hmem; simp at hmem
        · intro hmem; simp at hmem
        · intro hmem; simp at hmem
  · rw [if_neg hm] at hrun
    by_cases ht : tee_time_pending p = true
    · rw [if_pos ht] at hrun
      simp only [Option.some.injEq] at hrun
      by_cases hsd : s.tee_time_tweeted_round ≠ some p.round
      · rw [if_pos hsd] at hrun
        by_cases hp : post Category.teeTime = true
        · rw [if_pos hp] at hrun
          simp only [Prod.mk.injEq] at hrun
          obtain ⟨h1, h2⟩ := hrun
          subst h1; subst h2
          refine ⟨?_, ?_, ?_, ?_, ?_⟩
          · intro hmem; simp at hmem
          · intro _ hpf; rw [hp] at hpf; cases hpf
          · intro hmem; simp at hmem
          · intro hmem; simp at hmem
          · intro hmem; simp at hmem
        · rw [if_neg hp] at hrun
          simp only [Prod.mk.injEq] at hrun
          obtain ⟨h1, h2⟩ := hrun
          subst h1; subst h2
          refine ⟨?_, fun _ _ => rfl, ?_, ?_, ?_⟩
          · intro hmem; simp at hmem
          · intro hmem; simp at hmem
          · intro hmem; simp at hmem
          · intro hmem; simp at hmem
      · rw [if_neg hsd] at hrun
        simp only [Prod.mk.injEq] at hrun
        obtain ⟨h1, h2⟩ := hrun
        subst h1; subst h2
        refine ⟨?_, ?_, ?_, ?_, ?_⟩ <;> intro hmem <;> simp at hmem
    · rw [if_neg ht] at hrun
      by_cases hd : p.is_done = true
      · rw [if_pos hd] at hrun
        simp only [Option.some.injEq] at hrun
        have hfst : s' = (finish_branch p (round_reset p s) post).1 := by rw [hrun]
        have hsnd : fired = (finish_branch p (round_reset p s) post).2 := by rw [hrun]
        refine ⟨?_, ?_, ?_, ?_, ?_⟩
        · intro _ _; rw [hfst, finish_branch_fst_missed, round_reset_missed]
        · intro _ _; rw [hfst, finish_branch_fst_ttr, round_reset_ttr]
        · intro _ hpf; rw [hfst, finish_branch_rft_post_false _ _ _ hpf, round_reset_rft]
        · intro _ _; rw [hfst, finish_branch_fst_lah]; exact round_reset_lah_cases p s
        · intro hmem _
          rw [hsnd] at hmem
          rcases finish_branch_snd_cases p (round_reset p s) post with h | h <;>
            rw [h] at hmem <;> simp at hmem
      · rw [if_neg hd] at hrun
        by_cases hl : p.is_live = true
        · rw [if_pos hl] at hrun
          cases hls : live_step p (round_reset p s) post with
          | none => rw [hls] at hrun; cases hrun
          | some r =>
            rw [hls] at hrun
            simp only [Option.map_some', Option.some.injEq, Prod.mk.injEq] at hrun
            obtain ⟨h1, h2⟩ := hrun
            unfold live_step at hls
            cases hthru : p.thru with
            | none => rw [hthru] at hls; cases hls
            | some cur =>
              rw [hthru] at hls
              simp only [Option.some.injEq] at hls
              have hr1 : r.1 = (milestone_loop cur
                  ((alert_step p cur (round_reset p s) post).1.last_hole_milestone.getD 0) post
                  (alert_step p cur (round_reset p s) post).1 UPDATE_MILESTONES).1 := by
                rw [← hls]
              have hr2 : r.2 = (alert_step p cur (round_reset p s) post).2
                  ++ (milestone_loop cur
                    ((alert_step p cur (round_reset p s) post).1.last_hole_milestone.getD 0) post
                    (alert_step p cur (round_reset p s) post).1 UPDATE_MILESTONES).2 := by
                rw [← hls]
              have hmc : (persist p r.1).missed_cut = r.1.missed_cut := rfl
              have httr : (persist p r.1).tee_time_tweeted_round = r.1.tee_time_tweeted_round := rfl
              have hrft : (persist p r.1).round_finish_tweeted = r.1.round_finish_tweeted := rfl
              have hlah : (persist p r.1).last_alert_hole = r.1.last_alert_hole := rfl
              have hlhm : (persist p r.1).last_hole_milestone = r.1.last_hole_milestone := rfl
              refine ⟨?_, ?_, ?_, ?_, ?_⟩
              · intro _ _
                rw [← h1, hmc, hr1, milestone_loop_fst_missed, alert_step_fst_missed,
                  round_reset_missed]
              · intro _ _
                rw [← h1, httr, hr1, milestone_loop_fst_ttr, alert_step_fst_ttr,
                  round_reset_ttr]
              · intro _ _
                rw [← h1, hrft, hr1, milestone_loop_fst_rft, alert_step_fst_rft,
                  round_reset_rft]
              · intro _ hpf
                rw [← h1, hlah, hr1, milestone_loop_fst_lah,
                  alert_step_of_post_false _ _ _ _ hpf]
                exact round_reset_lah_cases p s
              · intro hmem hpf
                rw [← h2, hr2] at hmem
                have hmem2 : Category.milestone ∈ (milestone_loop cur
                    ((alert_step p cur (round_reset p s) post).1.last_hole_milestone.getD 0) post
                    (alert_step p cur (round_reset p s) post).1 UPDATE_MILESTONES).2 := by
                  rcases alert_step_snd_cases p cur (round_reset p s) post with h | h <;>
                    rw [h] at hmem <;> simpa using hmem
                rw [← h1, hlhm, hr1,
                  milestone_loop_of_post_false _ _ _ _ _ hpf hmem2, alert_step_fst_lhm]
                exact round_reset_lhm_cases p s
        · rw [if_neg hl] at hrun
          simp only [Option.some.injEq, Prod.mk.injEq] at hrun
          obtain ⟨h1, h2⟩ := hrun
          subst h1; subst h2
          refine ⟨?_, ?_, ?_, ?_, ?_⟩ <;> intro hmem <;> simp at hmem

/-- Witness for C4 (amended): the concrete failed milestone run returns
last_hole_milestone unchanged or cleared. -/
theorem marker_atomicity_amended_witness :
    c4_result.last_hole_milestone = c4_state.last_hole_milestone
    ∨ c4_result.last_hole_milestone = none :=
  (marker_atomicity_amended c4_snap c4_state (fun _ => false) c4_result
    [Category.milestone] (by decide)).2.2.2.2 (by decide) rfl

/-- Claim C8: in any single engine run the milestone category fires at most
once (the loop breaks at the first eligible milestone, smallest first); and
on a live snapshot in the same stored round whose last_alert_hole already
equals the snapshot hole, the due milestone is marked done silently: no
milestone message is emitted, yet last_hole_milestone advances to the
smallest eligible milestone. -/
theorem milestone_dedup :
    (∀ (p : Snapshot) (s : BotState) (post : Category → Bool)
       (s' : BotState) (fired : List Category),
       decide_and_tweet p s post = some (s', fired) →
       fired.count Category.milestone ≤ 1)
    ∧ (∀ (p : Snapshot) (s : BotState) (post : Category → Bool)
         (s' : BotState) (fired : List Category) (cur : Int),
         p.missed_cut = false →
         p.is_done = false →
         p.is_live = true →
         p.thru = some cur →
         s.round = some p.round →
         s.last_alert_hole = some cur →
         decide_and_tweet p s post = some (s', fired) →
         Category.milestone ∉ fired
         ∧ s'.last_hole_milestone =
             (if 6 ≤ cur ∧ s.last_hole_milestone.getD 0 < 6 then some 6
              else if 12 ≤ cur ∧ s.last_hole_milestone.getD 0 < 12 then some 12
              else s.last_hole_milestone)) := by
  constructor
  · intro p s post s' fired hrun
    unfold decide_and_tweet at hrun
    by_cases hm : p.missed_cut = true
    · rw [if_pos hm] at hrun
      simp only [Option.some.injEq] at hrun
      have h2 : fired = (if ¬s.missed_cut = true then
          (if post Category.missedCut = true then
            ({ s with missed_cut := true }, [Category.missedCut])
          else (s, [Category.missedCut]))
          else (s, ([] : List Category))).2 := by rw [hrun]
      rw [h2]
      split
      · split <;> simp
      · simp
    · rw [if_neg hm] at hrun
      by_cases ht : tee_time_pending p = true
      · rw [if_pos ht] at hrun
        simp only [Option.some.injEq] at hrun
        have h2 : fired = (if s.tee_time_tweeted_round ≠ some p.round then
            (if post Category.teeTime = true then
              ({ s with tee_time_tweeted_round := some p.round }, [Category.teeTime])
            else (s, [Category.teeTime]))
            else (s, ([] : List Category))).2 := by rw [hrun]
        rw [h2]
        split
        · split <;> simp
        · simp
      · rw [if_neg ht] at hrun
        by_cases hd : p.is_done = true
        · rw [if_pos hd] at hrun
          simp only [Option.some.injEq] at hrun
          have h2 : fired = (finish_branch p (round_reset p s) post).2 := by rw [hrun]
          rw [h2]
          rcases finish_branch_snd_cases p (round_reset p s) post with h | h <;> rw [h] <;> simp
        · rw [if_neg hd] at hrun
          by_cases hl : p.is_live = true
          · rw [if_pos hl] at hrun
            cases hls : live_step p (round_reset p s) post with
            | none => rw [hls] at hrun; cases hrun
            | some r =>
              rw [hls] at hrun
              simp only [Option.map_some', Option.some.injEq, Prod.mk.injEq] at hrun
              unfold live_step at hls
              cases hthru : p.thru with
              | none => rw [hthru] at hls; cases hls
              | some cur =>
                rw [hthru] at hls
                simp only [Option.some.injEq] at hls
                have h2 : fired = (alert_step p cur (round_reset p s) post).2
                    ++ (milestone_loop cur
                      ((alert_step p cur (round_reset p s) post).1.last_hole_milestone.getD 0) post
                      (alert_step p cur (round_reset p s) post).1 UPDATE_MILESTONES).2 := by
                  rw [← hrun.2, ← hls]
                rw [h2, List.count_append]
                have ca : (alert_step p cur (round_reset p s) post).2.count Category.milestone = 0 := by
                  rcases alert_step_snd_cases p cur (round_reset p s) post with h | h <;>
                    rw [h] <;> simp
                have cm : (milestone_loop cur
                    ((alert_step p cur (round_reset p s) post).1.last_hole_milestone.getD 0) post
                    (alert_step p cur (round_reset p s) post).1 UPDATE_MILESTONES).2.count
                      Category.milestone ≤ 1 := by
                  rcases milestone_loop_snd_cases cur
                      ((alert_step p cur (round_reset p s) post).1.last_hole_milestone.getD 0) post
                      (alert_step p cur (round_reset p s) post).1 UPDATE_MILESTONES with h | h <;>
                    rw [h] <;> simp
                omega
          · rw [if_neg hl] at hrun
            simp only [Option.some.injEq, Prod.mk.injEq] at hrun
            rw [← hrun.2]
            simp
  · intro p s post s' fired cur hm hd hl hthru hsr hlah hrun
    have ht := tee_time_pending_of_live p hl
    unfold decide_and_tweet at hrun
    rw [if_neg (by simp [hm]), if_neg (by simp [ht]), if_neg (by simp [hd]), if_pos hl,
      round_reset_of_eq p s hsr] at hrun
    unfold live_step at hrun
    rw [hthru] at hrun
    have ha : alert_step p cur s post = (s, []) := by
      unfold alert_step
      rw [hlah]
      simp
    simp only [Option.map_some', Option.some.injEq, Prod.mk.injEq] at hrun
    rw [ha] at hrun
    simp only [List.nil_append] at hrun
    have hml : milestone_loop cur (s.last_hole_milestone.getD 0) post s UPDATE_MILESTONES
        = (if 6 ≤ cur ∧ s.last_hole_milestone.getD 0 < 6 then
             ({ s with last_hole_milestone := some 6 }, ([] : List Category))
           else if 12 ≤ cur ∧ s.last_hole_milestone.getD 0 < 12 then
             ({ s with last_hole_milestone := some 12 }, ([] : List Category))
           else (s, ([] : List Category))) := by
      simp only [UPDATE_MILESTONES, milestone_loop, hlah, if_pos rfl]
      split_ifs <;> rfl
    have hfst : (milestone_loop cur (s.last_hole_milestone.getD 0) post s UPDATE_MILESTONES).1
        = (if 6 ≤ cur ∧ s.last_hole_milestone.getD 0 < 6 then
             { s with last_hole_milestone := some 6 }
           else if 12 ≤ cur ∧ s.last_hole_milestone.getD 0 < 12 then
             { s with last_hole_milestone := some 12 }
           else s) := by
      rw [hml]; split_ifs <;> rfl
    have hsnd : (milestone_loop cur (s.last_hole_milestone.getD 0) post s UPDATE_MILESTONES).2
        = [] := by
      rw [hml]; split_ifs <;> rfl
    constructor
    · rw [← hrun.2, hsnd]
      simp
    · rw [← hrun.1]
      have hp : (persist p (milestone_loop cur (s.last_hole_milestone.getD 0) post s
          UPDATE_MILESTONES).1).last_hole_milestone
          = (milestone_loop cur (s.last_hole_milestone.getD 0) post s
            UPDATE_MILESTONES).1.last_hole_milestone := rfl
      rw [hp, hfst]
      split_ifs <;> rfl

/-- Witness for C8: the representative run in which the alert hole equals
the current hole marks milestone 6 silently and fires nothing. -/
theorem milestone_dedup_witness :
    (([] : List Category).count Category.milestone ≤ 1)
    ∧ (Category.milestone ∉ ([] : List Category)
       ∧ c8_result.last_hole_milestone =
           (if 6 ≤ (6 : Int) ∧ c8_state.last_hole_milestone.getD 0 < 6 then some 6
            else if 12 ≤ (6 : Int) ∧ c8_state.last_hole_milestone.getD 0 < 12 then some 12
            else c8_state.last_hole_milestone)) :=
  ⟨milestone_dedup.1 c8_snap c8_state (fun _ => true) c8_result [] (by decide),
   milestone_dedup.2 c8_snap c8_state (fun _ => true) c8_result [] 6
     rfl rfl rfl rfl rfl rfl (by decide)⟩

lemma milestone_loop_lhm_post_true (cur : Int) (b : BotState) (post : Category → Bool)
    (hpost : post Category.milestone = true) :
    (milestone_loop cur (b.last_hole_milestone.getD 0) post b UPDATE_MILESTONES).1.last_hole_milestone
      = (if 6 ≤ cur ∧ b.last_hole_milestone.getD 0 < 6 then some 6
         else if 12 ≤ cur ∧ b.last_hole_milestone.getD 0 < 12 then some 12
         else b.last_hole_milestone) := by
  simp only [UPDATE_MILESTONES, milestone_loop, hpost]
  split_ifs <;> rfl

/-- Claim C2 counterexample: from the default state, a delivered run on a
live snapshot through 13 holes records only milestone 6 (the loop breaks
after one milestone), so the second run with the unchanged snapshot and
the produced state fires the milestone category again, for hole 12.  The
engine is therefore not idempotent as claimed. -/
theorem decide_not_idempotent :
    decide_and_tweet c2_snap DEFAULT_STATE (fun _ => true)
      = some (c2_state1, [Category.milestone])
    ∧ decide_and_tweet c2_snap c2_state1 (fun _ => true)
      = some (c2_state2, [Category.milestone]) :=
  ⟨by decide, by decide⟩

/-- Claim C2 (amended): if every message of the first run is confirmed
delivered, a second run on the unchanged snapshot fires nothing, provided
the snapshot has not already passed hole 12 while live (a live snapshot
with holesCompleted of 12 or more can cross both milestones at once, and
the second run then still fires the hole-12 milestone). -/
theorem decide_idempotent_amended :
    ∀ (p : Snapshot) (s : BotState) (post2 : Category → Bool)
      (s' : BotState) (fired1 : List Category),
      decide_and_tweet p s (fun _ => true) = some (s', fired1) →
      (p.is_live = true → p.thru.getD 0 < 12) →
      (decide_and_tweet p s' post2).map Prod.snd = some [] := by
  intro p s post2 s' fired1 hrun1 hml
  unfold decide_and_tweet at hrun1
  by_cases hm : p.missed_cut = true
  · rw [if_pos hm] at hrun1
    replace hrun1 := Option.some.inj hrun1
    have hs' : s'.missed_cut = true := by
      have h1 : s' = _ := congrArg Prod.fst hrun1.symm
      rw [h1]
      by_cases hs : s.missed_cut = true
      · rw [if_neg (by simp [hs])]; exact hs
      · rw [if_pos (by simp [hs]), if_pos rfl]
    unfold decide_and_tweet
    rw [if_pos hm, if_neg (by simp [hs'])]
    rfl
  · rw [if_neg hm] at hrun1
    by_cases ht : tee_time_pending p = true
    · rw [if_pos ht] at hrun1
      replace hrun1 := Option.some.inj hrun1
      have hs' : s'.tee_time_tweeted_round = some p.round := by
        have h1 : s' = _ := congrArg Prod.fst hrun1.symm
        rw [h1]
        by_cases hq : s.tee_time_tweeted_round ≠ some p.round
        · rw [if_pos hq, if_pos rfl]
        · rw [if_neg hq]; exact not_not.mp hq
      unfold decide_and_tweet
      rw [if_neg hm, if_pos ht, if_neg (by simp [hs'])]
      rfl
    · rw [if_neg ht] at hrun1
      by_cases hd : p.is_done = true
      · rw [if_pos hd] at hrun1
        simp only [Option.some.injEq] at hrun1
        have hfst : s' = (finish_branch p (round_reset p s) (fun _ => true)).1 := by rw [hrun1]
        have hrft : s'.round_finish_tweeted = some p.round := by
          rw [hfst]
          unfold finish_branch
          by_cases hq : (round_reset p s).round_finish_tweeted ≠ some p.round
          · rw [if_pos hq, if_pos rfl]; rfl
          · rw [if_neg hq]; exact not_not.mp hq
        have hround : s'.round = some p.round := by
          rw [hfst]
          obtain ⟨t, hts⟩ := finish_branch_fst_persist p (round_reset p s) (fun _ => true)
          rw [hts]; exact (persist_fields p t).2.1
        unfold decide_and_tweet
        rw [if_neg hm, if_neg (by simp [ht]), if_pos hd, round_reset_of_eq p s' hround]
        unfold finish_branch
        rw [if_neg (by simp [hrft])]
        rfl
      · rw [if_neg hd] at hrun1
        by_cases hl : p.is_live = true
        · rw [if_pos hl] at hrun1
          cases hls : live_step p (round_reset p s) (fun _ => true) with
          | none => rw [hls] at hrun1; cases hrun1
          | some r =>
            rw [hls] at hrun1
            simp only [Option.map_some', Option.some.injEq, Prod.mk.injEq] at hrun1
            obtain ⟨h1, h2⟩ := hrun1
            unfold live_step at hls
            cases hthru : p.thru with
            | none => rw [hthru] at hls; cases hls
            | some cur =>
              rw [hthru] at hls
              simp only [Option.some.injEq] at hls
              have hcur : cur < 12 := by
                have := hml hl
                rw [hthru] at this
                simpa using this
              have hsr' : s'.round = some p.round := by
                rw [← h1]; exact (persist_fields p r.1).2.1
              have hsthru : s'.thru = p.thru := by
                rw [← h1]; exact (persist_fields p r.1).2.2.1
              have hstoday : s'.today_score = p.today_score := by
                rw [← h1]; exact (persist_fields p r.1).2.2.2.1
              have hr1 : r.1 = (milestone_loop cur
                  ((alert_step p cur (round_reset p s) (fun _ => true)).1.last_hole_milestone.getD 0)
                  (fun _ => true)
                  (alert_step p cur (round_reset p s) (fun _ => true)).1 UPDATE_MILESTONES).1 := by
                rw [← hls]
              have hlhm' : s'.last_hole_milestone = r.1.last_hole_milestone := by
                rw [← h1]
                rfl
              rw [hr1, milestone_loop_lhm_post_true cur _ _ rfl,
                alert_step_fst_lhm p cur (round_reset p s) (fun _ => true)] at hlhm'
              have c12 : ¬(cur ≥ 12 ∧ 12 > s'.last_hole_milestone.getD 0) := by omega
              have c6 : ¬(cur ≥ 6 ∧ 6 > s'.last_hole_milestone.getD 0) := by
                by_cases h6 : 6 ≤ cur ∧ (round_reset p s).last_hole_milestone.getD 0 < 6
                · rw [if_pos h6] at hlhm'
                  rw [hlhm']
                  intro hc
                  simp at hc
                · rw [if_neg h6] at hlhm'
                  have h12 : ¬(12 ≤ cur ∧ (round_reset p s).last_hole_milestone.getD 0 < 12) := by
                    omega
                  rw [if_neg h12] at hlhm'
                  rw [hlhm']
                  intro hc
                  exact h6 ⟨hc.1, hc.2⟩
              have hdetect : detect_score_event s'.today_score p.today_score s'.thru p.thru
                  = none := by
                rw [hstoday, hsthru]
                exact detect_score_event_same_thru _ _ _
              have ha2 : alert_step p cur s' post2 = (s', []) := by
                unfold alert_step
                rw [hdetect]
                simp
              have hml2 : milestone_loop cur (s'.last_hole_milestone.getD 0) post2 s'
                  UPDATE_MILESTONES = (s', []) := by
                simp only [UPDATE_MILESTONES, milestone_loop]
                rw [if_neg c6, if_neg c12]
              have hlive2 : live_step p s' post2 = some (s', []) := by
                unfold live_step
                rw [hthru]
                show some ((milestone_loop cur
                    ((alert_step p cur s' post2).1.last_hole_milestone.getD 0) post2
                    (alert_step p cur s' post2).1 UPDATE_MILESTONES).1,
                  (alert_step p cur s' post2).2
                    ++ (milestone_loop cur
                      ((alert_step p cur s' post2).1.last_hole_milestone.getD 0) post2
                      (alert_step p cur s' post2).1 UPDATE_MILESTONES).2) = some (s', [])
                rw [ha2]
                show some ((milestone_loop cur (s'.last_hole_milestone.getD 0) post2 s'
                    UPDATE_MILESTONES).1,
                  ([] : List Category)
                    ++ (milestone_loop cur (s'.last_hole_milestone.getD 0) post2 s'
                      UPDATE_MILESTONES).2) = some (s', [])
                rw [hml2]
                rfl
              unfold decide_and_tweet
              rw [if_neg hm, if_neg (by simp [ht]), if_neg (by simp [hd]), if_pos hl,
                round_reset_of_eq p s' hsr', hlive2]
              rfl
        · rw [if_neg hl] at hrun1
          unfold decide_and_tweet
          rw [if_neg hm, if_neg (by simp [ht]), if_neg (by simp [hd]), if_neg hl]
          rfl

/-- Witness for C2 (amended): after the delivered run on the 7-hole live
snapshot, a second run fires nothing. -/
theorem decide_idempotent_amended_witness :
    (decide_and_tweet c2w_snap c2w_state1 (fun _ => true)).map Prod.snd = some [] :=
  decide_idempotent_amended c2w_snap DEFAULT_STATE (fun _ => true) c2w_state1
    [Category.milestone] (by decide) (by decide)
